import Mathlib

/-!
A shallow embedding of `src/mongo/util/options_parser/options_parser.cpp`
(namespace `mongo::optionenvironment`).

The file `options_parser.cpp` is the only source file under `src/`; the types it
uses (`Status`, `Value`, `Environment`, `OptionSection`, `OptionDescription`,
`Constraint`) are declared in headers of the same repository that are not under
`src/`, so they are modelled from the spec (sections 3 and 6 of `spec.md`), as
marked in each doc comment.  External collaborators (boost::program_options,
yaml-cpp parsing, file reading, `parseNumberFromString`) are out of scope per the
spec and enter the model as oracle inputs or as spec-modelled routines.
-/

set_option autoImplicit false

namespace optionenvironment

/-- Modelled from the spec: error codes used by `options_parser.cpp`
(`mongo/base/error_codes` is not under `src/`).  Section 7 of the spec names
`BadValue` and `InternalError`; `NoSuchKey` and `TypeMismatch` appear in the
source's checks (`ret != ErrorCodes::NoSuchKey`, typed `get` failures). -/
inductive ErrorCode where
  | OK
  | InternalError
  | BadValue
  | NoSuchKey
  | TypeMismatch
  deriving DecidableEq, Repr

/-- Modelled from the spec: `mongo::Status` (not under `src/`), "success or one
typed error with a human-readable message" (spec section 7). -/
structure Status where
  code : ErrorCode
  msg : String
  deriving DecidableEq, Repr

/-- The OK status (`Status::OK()`). -/
def Status.ok : Status := ⟨ErrorCode.OK, ""⟩

/-- `Status::isOK()`. -/
def Status.isOK (s : Status) : Bool := s.code == ErrorCode.OK

/-- The option types of the schema (spec section 3, "tagged union over ...");
the enumerators mirror the `OptionType` cases matched in `YAMLNodeToValue` and
`addBoostVariablesToEnvironment`. -/
inductive OptionType where
  | Switch
  | Bool
  | Double
  | Int
  | Long
  | String
  | UnsignedLongLong
  | Unsigned
  | StringVector
  deriving DecidableEq, Repr

/-- Modelled from the spec: the tagged-union `Value` (spec section 3).
`Double` is represented by an integer payload here; no claim depends on
floating-point arithmetic, only on which tag a value carries. -/
inductive Value where
  | boolVal (b : Bool)
  | doubleVal (d : Int)
  | intVal (n : Int)
  | longVal (n : Int)
  | stringVal (s : String)
  | unsignedLongLongVal (n : Nat)
  | unsignedVal (n : Nat)
  | stringVectorVal (xs : List String)
  deriving DecidableEq, Repr

/-- Modelled from the spec: typed access `Value::get(bool*)` — "accessing it as
a mismatched type fails with a type-mismatch error rather than performing
coercion" (spec section 3). -/
def Value.getBool : Value → Except Status Bool
  | .boolVal b => .ok b
  | _ => .error ⟨ErrorCode.TypeMismatch, "value is not of type bool"⟩

/-- Modelled from the spec: typed access `Value::get(std::string*)`. -/
def Value.getString : Value → Except Status String
  | .stringVal s => .ok s
  | _ => .error ⟨ErrorCode.TypeMismatch, "value is not of type string"⟩

/-- Modelled from the spec: the `_sources` bitmask of an option
(`SourceCommandLine`, `SourceINIConfig`, `SourceYAMLConfig`); the source only
tests single bits, so a record of three flags is an exact model. -/
structure SourceMask where
  cmdline : Bool
  ini : Bool
  yaml : Bool
  deriving DecidableEq, Repr

/-- Modelled from the spec: one schema entry (spec section 3,
`OptionDescription`), with exactly the fields `options_parser.cpp` reads:
`_dottedName`, `_singleName`, `_type`, `_sources`, `_isComposing`, and the
default used by `OptionSection::getDefaults`. -/
structure OptionDescription where
  dottedName : String
  singleName : String
  type : OptionType
  sources : SourceMask
  isComposing : Bool
  defaultValue : Option Value
  deriving DecidableEq, Repr

/-- Modelled from the spec: a deferred validation rule (spec section 3,
`Constraint`); the merge engine only moves constraints around, never evaluates
them, so an opaque tag suffices. -/
structure Constraint where
  id : Nat
  deriving DecidableEq, Repr

/-- Modelled from the spec: `OptionSection` (spec section 3) restricted to the
accessors the source uses: `getAllOptions` (the ordered list of descriptions)
and `getConstraints`; both always succeed. -/
structure OptionSection where
  opts : List OptionDescription
  constraints : List Constraint
  deriving DecidableEq, Repr

/-- Association-list lookup by key (first match), the model of `std::map` /
`variables_map` lookup used throughout. -/
def lookupKV {α : Type} : List (String × α) → String → Option α
  | [], _ => none
  | (k', v) :: rest, k => if k' = k then some v else lookupKV rest k

/-- Replace the entry for `k` in place, or append it; the model of
`map[k] = v`. -/
def setValues {α : Type} : List (String × α) → String → α → List (String × α)
  | [], k, v => [(k, v)]
  | (k', v') :: rest, k, v =>
      if k' = k then (k, v) :: rest else (k', v') :: setValues rest k v

/-- Keys of an association list, in order. -/
def keysOf {α : Type} (vals : List (String × α)) : List String :=
  vals.map Prod.fst

/-- Modelled from the spec: `Environment` (spec section 3): "ordered mapping
Key→Value, a parallel mapping of which keys hold *default* values, and a list
of borrowed Constraint references". -/
structure Environment where
  values : List (String × Value)
  defaults : List (String × Value)
  constraints : List Constraint
  deriving DecidableEq, Repr

/-- The empty environment (a freshly constructed `Environment`). -/
def Environment.empty : Environment := ⟨[], [], []⟩

/-- Modelled from the spec: `Environment::get(Key, Value*)` — an explicitly set
value shadows a default; a key in neither map yields `NoSuchKey` (the code in
`options_parser.cpp` compares the failure against `ErrorCodes::NoSuchKey`). -/
def Environment.get (env : Environment) (k : String) : Except Status Value :=
  match lookupKV env.values k with
  | some v => .ok v
  | none =>
      match lookupKV env.defaults k with
      | some v => .ok v
      | none => .error ⟨ErrorCode.NoSuchKey, "no such key: " ++ k⟩

/-- Modelled from the spec: `Environment::set` — inserts or overwrites an
explicit value (spec section 3, invariant 3: explicit values may overwrite
defaults and earlier-layer values without error; the duplicate-key check of the
YAML adapter is done by `addYAMLNodesToEnvironment` itself, so `set` does not
fail). -/
def Environment.set (env : Environment) (k : String) (v : Value) :
    Status × Environment :=
  (Status.ok, { env with values := setValues env.values k v })

/-- Modelled from the spec: `Environment::setDefault` — records a default in
the parallel default map; it never displaces an explicit value (spec section 3,
invariant 1). -/
def Environment.setDefault (env : Environment) (k : String) (v : Value) :
    Status × Environment :=
  (Status.ok, { env with defaults := setValues env.defaults k v })

/-- The loop inside `Environment::setAll`: apply `set` for each explicit entry
of the other environment, in order. -/
def setAllLoop (env : Environment) : List (String × Value) → Environment
  | [] => env
  | (k, v) :: rest => setAllLoop (env.set k v).2 rest

/-- Modelled from the spec: `Environment::setAll(otherEnv)` (spec section 6) —
copies every explicitly set entry of `other` into `env`. -/
def Environment.setAll (env other : Environment) : Status × Environment :=
  (Status.ok, setAllLoop env other.values)

/-- Modelled from the spec: typed `Environment::get(Key, std::vector<string>*)`
used by `addCompositions`: value present with the vector tag succeeds, present
with another tag is a type mismatch, absent is `NoSuchKey`. -/
def Environment.getStringVector (env : Environment) (k : String) :
    Except Status (List String) :=
  match env.get k with
  | .error st => .error st
  | .ok (Value.stringVectorVal xs) => .ok xs
  | .ok _ => .error ⟨ErrorCode.TypeMismatch, "value is not of type string vector"⟩

/-- `Environment::addConstraint`. -/
def Environment.addConstraint (env : Environment) (c : Constraint) : Environment :=
  { env with constraints := env.constraints ++ [c] }

/-- A parsed YAML tree, the output of the out-of-scope yaml-cpp parser (spec
section 1: "a tree of scalars/sequences/mappings").  Mapping keys appear in the
source only through `it->first.Scalar()`, so they are strings here. -/
inductive YNode where
  | null
  | scalar (s : String)
  | seq (items : List YNode)
  | map (entries : List (String × YNode))

/-- `YAML::Node::IsMap()`. -/
def YNode.isMap : YNode → Bool
  | .map _ => true
  | _ => false

/-- `YAML::Node::IsScalar()`. -/
def YNode.isScalar : YNode → Bool
  | .scalar _ => true
  | _ => false

/-- `YAML::Node::IsSequence()`. -/
def YNode.isSeq : YNode → Bool
  | .seq _ => true
  | _ => false

/-- `YAML::Node::Scalar()`: the scalar text of a node (empty for non-scalar
nodes, as in yaml-cpp). -/
def YNode.scalarOf : YNode → String
  | .scalar s => s
  | _ => ""

/-- Modelled from the spec: `parseNumberFromString` (`mongo/base/parse_number`
is not under `src/`): the "single shared string→number routine" of spec
section 4.1.  Its exact overflow/format behavior is irrelevant to every claim;
only its success/`BadValue` shape is used. -/
def parseNumberFromString (s : String) : Except Status Int :=
  match s.toInt? with
  | some n => .ok n
  | none => .error ⟨ErrorCode.BadValue, "could not parse number from string: " ++ s⟩

/-- Modelled from the spec: `parseNumberFromString` at an unsigned type. -/
def parseUnsignedFromString (s : String) : Except Status Nat :=
  match parseNumberFromString s with
  | .error st => .error st
  | .ok n =>
      if n < 0 then .error ⟨ErrorCode.BadValue, "negative value for unsigned: " ++ s⟩
      else .ok n.toNat

/-- The registration scan at the start of `YAMLNodeToValue`
(options_parser.cpp lines 113-128): the loop has no break, so the *last*
matching description's type wins; `none` means `isRegistered` stays false. -/
def lookupYAMLType (options_vector : List OptionDescription) (key : String) :
    Option OptionType :=
  options_vector.foldl
    (fun acc d => if d.dottedName = key ∧ d.sources.yaml = true then some d.type else acc)
    none

/-- `YAMLNodeToValue` (options_parser.cpp lines 109-223): convert a YAML node
to a typed `Value` for the registered option `key`.  The dead second
`stringVal == "true"` branch of the source (line 172) is kept as written. -/
def YAMLNodeToValue (node : YNode) (options_vector : List OptionDescription)
    (key : String) : Except Status Value :=
  match lookupYAMLType options_vector key with
  | none => .error ⟨ErrorCode.BadValue, "Unrecognized option: " ++ key⟩
  | some type =>
    if type = OptionType.StringVector then
      match node with
      | .seq items =>
          if items.any (fun it => it.isSeq) then
            .error ⟨ErrorCode.BadValue,
              "Option: " ++ key ++ " has nested lists, which is not allowed"⟩
          else .ok (Value.stringVectorVal (items.map YNode.scalarOf))
      | _ => .error ⟨ErrorCode.BadValue,
          "Option: " ++ key ++
          " is of type StringVector, but value in YAML config is not a list type"⟩
    else
      let stringVal := node.scalarOf
      match type with
      | .Switch | .Bool =>
          if stringVal = "true" then .ok (Value.boolVal true)
          else if stringVal = "true" then .ok (Value.boolVal false)
          else .error ⟨ErrorCode.BadValue,
            "Expected boolean but found string: " ++ stringVal ++
            " for option: " ++ key⟩
      | .Double =>
          match parseNumberFromString stringVal with
          | .error st => .error st
          | .ok n => .ok (Value.doubleVal n)
      | .Int =>
          match parseNumberFromString stringVal with
          | .error st => .error st
          | .ok n => .ok (Value.intVal n)
      | .Long =>
          match parseNumberFromString stringVal with
          | .error st => .error st
          | .ok n => .ok (Value.longVal n)
      | .String => .ok (Value.stringVal stringVal)
      | .UnsignedLongLong =>
          match parseUnsignedFromString stringVal with
          | .error st => .error st
          | .ok n => .ok (Value.unsignedLongLongVal n)
      | .Unsigned =>
          match parseUnsignedFromString stringVal with
          | .error st => .error st
          | .ok n => .ok (Value.unsignedVal n)
      | .StringVector => .error ⟨ErrorCode.InternalError, "Unrecognized option type"⟩

/-- The dotted-name computation of `addYAMLNodesToEnvironment`
(options_parser.cpp lines 311-329), with the `"value"` sentinel. -/
def dottedNameFor (parentPath fieldName : String) : String :=
  if parentPath = "" then fieldName
  else if fieldName = "value" then parentPath
  else parentPath ++ "." ++ fieldName

mutual

/-- `addYAMLNodesToEnvironment` (options_parser.cpp lines 285-357).  A null
root is accepted (empty config); a non-map root is an error only at the top
level (elsewhere iterating a non-map yields no map entries; recursion descends
only into maps, so that branch is unreachable from `run`). -/
def addYAMLNodesToEnvironment (root : YNode) (options : OptionSection)
    (parentPath : String) (env : Environment) : Status × Environment :=
  match root with
  | .null => (Status.ok, env)
  | .map kvs => addYAMLChildren kvs options parentPath env
  | _ =>
      if parentPath = "" then
        (⟨ErrorCode.BadValue, "No map found at top level of YAML config"⟩, env)
      else (Status.ok, env)

/-- The `for` loop of `addYAMLNodesToEnvironment` (options_parser.cpp lines
307-354).  For a map-valued field the recursive call's `Status` is discarded
(line 332 assigns to nothing), exactly as in the source; for other fields the
node is converted, checked against already-present keys, and stored. -/
def addYAMLChildren (kvs : List (String × YNode)) (options : OptionSection)
    (parentPath : String) (env : Environment) : Status × Environment :=
  match kvs with
  | [] => (Status.ok, env)
  | (fieldName, node) :: rest =>
      let dottedName := dottedNameFor parentPath fieldName
      if node.isMap then
        let r := addYAMLNodesToEnvironment node options dottedName env
        addYAMLChildren rest options parentPath r.2
      else
          match YAMLNodeToValue node options.opts dottedName with
          | .error st => (st, env)
          | .ok optionValue =>
              match env.get dottedName with
              | .ok _ =>
                  (⟨ErrorCode.BadValue,
                    "Error parsing YAML config: duplcate key: " ++ dottedName⟩, env)
              | .error _ =>
                  let r := env.set dottedName optionValue
                  if r.1.isOK then addYAMLChildren rest options parentPath r.2
                  else (r.1, r.2)

end

/-- `isYAMLConfig` (options_parser.cpp lines 578-595): a scalar root means the
permissive YAML grammar swallowed an INI file into one string. -/
def isYAMLConfig (config : YNode) : Bool :=
  if config.isScalar then false else true

/-- A `boost::any` as stored in a `variables_map`: exactly the eight types
tested by `boostAnyToValue` plus a stand-in for any other `type()`
(`anyOther` carries the reported type name). -/
inductive BoostAny where
  | anyStringVector (xs : List String)
  | anyBool (b : Bool)
  | anyDouble (d : Int)
  | anyInt (n : Int)
  | anyLong (n : Int)
  | anyString (s : String)
  | anyUnsignedLongLong (n : Nat)
  | anyUnsigned (n : Nat)
  | anyOther (tyName : String)
  deriving DecidableEq, Repr

/-- The model of a `boost::program_options::variables_map`: the flat table of
resolved option name → raw value produced by the out-of-scope boost parsers. -/
def VariablesMap : Type := List (String × BoostAny)

/-- `boostAnyToValue` (options_parser.cpp lines 66-106). -/
def boostAnyToValue : BoostAny → Except Status Value
  | .anyStringVector xs => .ok (Value.stringVectorVal xs)
  | .anyBool b => .ok (Value.boolVal b)
  | .anyDouble d => .ok (Value.doubleVal d)
  | .anyInt n => .ok (Value.intVal n)
  | .anyLong n => .ok (Value.longVal n)
  | .anyString s => .ok (Value.stringVal s)
  | .anyUnsignedLongLong n => .ok (Value.unsignedLongLongVal n)
  | .anyUnsigned n => .ok (Value.unsignedVal n)
  | .anyOther tyName =>
      .error ⟨ErrorCode.InternalError,
        "Unrecognized type: " ++ tyName ++ " in any to Value conversion"⟩

/-- Index of the first `','` in a character list, if any
(`std::string::find(',')`). -/
def findCommaIdx : List Char → Option Nat
  | [] => none
  | c :: rest => if c = ',' then some 0 else (findCommaIdx rest).map (· + 1)

/-- The long-name trimming of `addBoostVariablesToEnvironment`
(options_parser.cpp lines 240-255): `"option,o"` is trimmed to `"option"`; a
comma anywhere but at `size() - 2` is a `BadValue` error.  The position test is
done over `Int` to mirror the unsigned `size() - 2` comparison (for any name
containing a comma, `size() >= 1`, and `size() = 1` makes the C++ right side
wrap to a huge value, never equal to the comma offset — matched here by the
negative right side). -/
def longNameOf (singleName : String) : Except Status String :=
  match findCommaIdx singleName.toList with
  | none => .ok singleName
  | some i =>
      if (i : Int) ≠ (singleName.toList.length : Int) - 2 then
        .error ⟨ErrorCode.BadValue,
          "Unexpected comma in option name: \"" ++ singleName ++
          "\": option name must be in the format \"option,o\" or \"option\", " ++
          "where \"option\" is the long name and \"o\" is the optional one " ++
          "character short alias"⟩
      else .ok (String.mk (singleName.toList.take i))

/-- The loop of `addBoostVariablesToEnvironment` (options_parser.cpp lines
237-279) over the registered option descriptions.  A `Switch` whose boolean
value is false is skipped (`continue`, line 273); the `environment->set` status
on line 277 is discarded, as in the source. -/
def addBoostVariablesLoop (options_vector : List OptionDescription)
    (vm : VariablesMap) (env : Environment) : Status × Environment :=
  match options_vector with
  | [] => (Status.ok, env)
  | d :: rest =>
      match longNameOf d.singleName with
      | .error st => (st, env)
      | .ok long_name =>
          match lookupKV vm long_name with
          | none => addBoostVariablesLoop rest vm env
          | some anyValue =>
              match boostAnyToValue anyValue with
              | .error st => (st, env)
              | .ok optionValue =>
                  if d.type = OptionType.Switch then
                    match optionValue.getBool with
                    | .error st => (st, env)
                    | .ok b =>
                        if b = false then addBoostVariablesLoop rest vm env
                        else
                          addBoostVariablesLoop rest vm (env.set d.dottedName optionValue).2
                  else
                    addBoostVariablesLoop rest vm (env.set d.dottedName optionValue).2

/-- `addBoostVariablesToEnvironment` (options_parser.cpp lines 227-281);
`getAllOptions` always succeeds in the model. -/
def addBoostVariablesToEnvironment (vm : VariablesMap) (options : OptionSection)
    (env : Environment) : Status × Environment :=
  addBoostVariablesLoop options.opts vm env

/-- The loop of `addCompositions` (options_parser.cpp lines 373-407): for each
composing option, append the source environment's vector after the destination
environment's vector and store the result in the destination. -/
def addCompositionsLoop (options_vector : List OptionDescription)
    (source : Environment) (dest : Environment) : Status × Environment :=
  match options_vector with
  | [] => (Status.ok, dest)
  | d :: rest =>
      if d.isComposing then
        match source.getStringVector d.dottedName with
        | .error st =>
            if st.code ≠ ErrorCode.NoSuchKey then
              (⟨ErrorCode.InternalError,
                "Error getting composable vector value from source: " ++ st.msg⟩, dest)
            else addCompositionsLoop rest source dest
        | .ok source_value =>
            match dest.getStringVector d.dottedName with
            | .error st =>
                if st.code ≠ ErrorCode.NoSuchKey then
                  (⟨ErrorCode.InternalError,
                    "Error getting composable vector value from dest: " ++ st.msg⟩, dest)
                else
                  let r := dest.set d.dottedName
                      (Value.stringVectorVal ([] ++ source_value))
                  if r.1.isOK then addCompositionsLoop rest source r.2 else (r.1, r.2)
            | .ok dest_value =>
                let r := dest.set d.dottedName
                    (Value.stringVectorVal (dest_value ++ source_value))
                if r.1.isOK then addCompositionsLoop rest source r.2 else (r.1, r.2)
      else addCompositionsLoop rest source dest

/-- `addCompositions` (options_parser.cpp lines 364-410). -/
def addCompositions (options : OptionSection) (source : Environment)
    (dest : Environment) : Status × Environment :=
  addCompositionsLoop options.opts source dest

/-- `addConstraints` (options_parser.cpp lines 416-431). -/
def addConstraints (options : OptionSection) (dest : Environment) :
    Status × Environment :=
  (Status.ok, options.constraints.foldl Environment.addConstraint dest)

/-- Modelled from the spec: `OptionSection::getDefaults` (option_section.cpp is
not under `src/`): the map of dotted key → declared default for the options
that have one (spec section 3). -/
def getDefaults (options : OptionSection) : List (String × Value) :=
  options.opts.filterMap (fun d => d.defaultValue.map (fun v => (d.dottedName, v)))

/-- The loop of `OptionsParser::addDefaultValues` (options_parser.cpp lines
611-618). -/
def addDefaultValuesLoop (defaults : List (String × Value)) (env : Environment) :
    Status × Environment :=
  match defaults with
  | [] => (Status.ok, env)
  | (k, v) :: rest =>
      let r := env.setDefault k v
      if r.1.isOK then addDefaultValuesLoop rest r.2 else (r.1, r.2)

/-- `OptionsParser::addDefaultValues` (options_parser.cpp lines 602-621). -/
def addDefaultValues (options : OptionSection) (env : Environment) :
    Status × Environment :=
  addDefaultValuesLoop (getDefaults options) env

/-- The outcomes of the external collaborators `OptionsParser::run` delegates
to (spec sections 1 and 6): the boost command-line parse of the given argv, the
file-reading collaborator, yaml-cpp's `YAML::Load`, and the boost INI parse of
given file contents.  Each is either its result or the `Status` the source
wraps its failure into (options_parser.cpp lines 500-510, 540-550, 563-573,
629-687). -/
structure Collaborators where
  cmdlineVm : Except Status VariablesMap
  readFile : String → Except Status String
  yamlLoad : String → Except Status YNode
  iniVm : String → Except Status VariablesMap

/-- `OptionsParser::parseCommandLine` (options_parser.cpp lines 443-512): the
boost tokenizer is an oracle; its output is folded into the environment by
`addBoostVariablesToEnvironment`. -/
def parseCommandLine (options : OptionSection)
    (cmdlineVm : Except Status VariablesMap) (environment : Environment) :
    Status × Environment :=
  match cmdlineVm with
  | .error st => (st, environment)
  | .ok vm => addBoostVariablesToEnvironment vm options environment

/-- `OptionsParser::parseINIConfigFile` (options_parser.cpp lines 521-552),
with the boost config-file parse as an oracle. -/
def parseINIConfigFile (options : OptionSection)
    (iniVmResult : Except Status VariablesMap) (environment : Environment) :
    Status × Environment :=
  match iniVmResult with
  | .error st => (st, environment)
  | .ok vm => addBoostVariablesToEnvironment vm options environment

/-- The YAML-vs-INI dispatch of `OptionsParser::run` (options_parser.cpp lines
743-754): a root classified as YAML goes to `addYAMLNodesToEnvironment`, any
other to `parseINIConfigFile`. -/
def parseConfigByFormat (options : OptionSection) (collab : Collaborators)
    (config_file : String) (YAMLConfig : YNode) (configEnvironment : Environment) :
    Status × Environment :=
  if isYAMLConfig YAMLConfig then
    addYAMLNodesToEnvironment YAMLConfig options "" configEnvironment
  else
    parseINIConfigFile options (collab.iniVm config_file) configEnvironment

/-- Stages 3-5 of `OptionsParser::run` (options_parser.cpp lines 757-799):
composition into a fresh composed environment (command-line environment first,
then config environment), default injection, the three `setAll` layers in the
order config / command line / composed, and constraint attachment. -/
def mergeEnvironments (options : OptionSection)
    (configEnvironment commandLineEnvironment : Environment)
    (environment : Environment) : Status × Environment :=
  let r1 := addCompositions options commandLineEnvironment Environment.empty
  if ¬ r1.1.isOK then (r1.1, environment)
  else
    let r2 := addCompositions options configEnvironment r1.2
    if ¬ r2.1.isOK then (r2.1, environment)
    else
      let composedEnvironment := r2.2
      let r3 := addDefaultValues options environment
      if ¬ r3.1.isOK then (r3.1, r3.2)
      else
        let r4 := (r3.2).setAll configEnvironment
        if ¬ r4.1.isOK then (r4.1, r4.2)
        else
          let r5 := (r4.2).setAll commandLineEnvironment
          if ¬ r5.1.isOK then (r5.1, r5.2)
          else
            let r6 := (r5.2).setAll composedEnvironment
            if ¬ r6.1.isOK then (r6.1, r6.2)
            else
              let r7 := addConstraints options r6.2
              if ¬ r7.1.isOK then (r7.1, r7.2)
              else (Status.ok, r7.2)

/-- `OptionsParser::run` (options_parser.cpp lines 701-800): parse the command
line, look up the reserved `config` key, read and classify the config file,
parse it with the matching adapter, then merge (composition, defaults,
layering, constraints) into the caller's environment. -/
def run (options : OptionSection) (collab : Collaborators)
    (environment : Environment) : Status × Environment :=
  match parseCommandLine options collab.cmdlineVm Environment.empty with
  | (st1, commandLineEnvironment) =>
    if ¬ st1.isOK then (st1, environment)
    else
      match commandLineEnvironment.get "config" with
      | .error st =>
          if st.code ≠ ErrorCode.NoSuchKey then (st, environment)
          else mergeEnvironments options Environment.empty commandLineEnvironment environment
      | .ok config_value =>
          match config_value.getString with
          | .error st => (st, environment)
          | .ok config_filename =>
              match collab.readFile config_filename with
              | .error st => (st, environment)
              | .ok config_file =>
                  match collab.yamlLoad config_file with
                  | .error st => (st, environment)
                  | .ok YAMLConfig =>
                      match parseConfigByFormat options collab config_file
                          YAMLConfig Environment.empty with
                      | (st2, configEnvironment) =>
                        if ¬ st2.isOK then (st2, environment)
                        else mergeEnvironments options configEnvironment
                            commandLineEnvironment environment

instance exceptDecEq {ε α : Type} [DecidableEq ε] [DecidableEq α] :
    DecidableEq (Except ε α) := fun x y =>
  match x, y with
  | .ok a, .ok b =>
      if h : a = b then .isTrue (by rw [h])
      else .isFalse (fun hc => h (Except.ok.inj hc))
  | .error a, .error b =>
      if h : a = b then .isTrue (by rw [h])
      else .isFalse (fun hc => h (Except.error.inj hc))
  | .ok _, .error _ => .isFalse (fun hc => Except.noConfusion hc)
  | .error _, .ok _ => .isFalse (fun hc => Except.noConfusion hc)

/-- A typed-vector read that is either a success or a clean `NoSuchKey` miss:
the two branches of `addCompositions` that do *not* abort with
`InternalError`. -/
def benignSV (r : Except Status (List String)) : Bool :=
  match r with
  | .ok _ => true
  | .error st => st.code == ErrorCode.NoSuchKey

/-- Every composing option of the list reads benignly (success or `NoSuchKey`)
from `env`; this is exactly the condition under which `addCompositions` cannot
abort because of `env`. -/
def composingBenign (options_vector : List OptionDescription) (env : Environment) : Prop :=
  ∀ d ∈ options_vector, d.isComposing = true →
    benignSV (env.getStringVector d.dottedName) = true

instance composingBenignDec (options_vector : List OptionDescription)
    (env : Environment) : Decidable (composingBenign options_vector env) := by
  unfold composingBenign
  infer_instance

/-- `pat` occurs as a substring of `s`. -/
def strContains (s pat : String) : Prop := ∃ p q, s = p ++ pat ++ q

/-- A source bitmask permitting all three sources. -/
def srcAll : SourceMask := ⟨true, true, true⟩

/-- A composing `StringVector` option, as a concrete scenario entry. -/
def multiOpt : OptionDescription :=
  ⟨"multi", "multi", OptionType.StringVector, srcAll, true, none⟩

/-- The reserved `config` option (command-line only), as a concrete scenario
entry. -/
def configOpt : OptionDescription :=
  ⟨"config", "config", OptionType.String, ⟨true, false, false⟩, false, none⟩

/-- Schema for the concrete composition scenario: one composing vector option
plus the reserved `config` option. -/
def composeScenarioSection : OptionSection := ⟨[multiOpt, configOpt], []⟩

/-- Collaborator outcomes for the concrete composition scenario: the command
line supplies `multi = [cli1]` and `config = conf.yaml`; the config file parses
as a YAML mapping with `multi: [cfg1]`. -/
def composeScenarioCollab : Collaborators where
  cmdlineVm := .ok [("multi", .anyStringVector ["cli1"]), ("config", .anyString "conf.yaml")]
  readFile := fun _ => .ok "multi:\n  - cfg1\n"
  yamlLoad := fun _ => .ok (.map [("multi", .seq [.scalar "cfg1"])])
  iniVm := fun _ => .ok []

/-- Schema registering only the YAML-sourced string option `good`. -/
def goodOnlySection : OptionSection :=
  ⟨[⟨"good", "good", OptionType.String, srcAll, false, none⟩], []⟩

/-- YAML document with a nested mapping whose only leaf `sub.bad` is
unregistered, followed by the registered top-level leaf `good`. -/
def nestedBadDoc : YNode :=
  .map [("sub", .map [("bad", .scalar "1")]), ("good", .scalar "x")]

/-- Schema registering only the YAML-sourced string option `a.b`. -/
def abSection : OptionSection :=
  ⟨[⟨"a.b", "a.b", OptionType.String, srcAll, false, none⟩], []⟩

/-- YAML document in which the dotted key `a.b` is produced twice via two
nested mappings under the repeated top-level field `a`. -/
def nestedDupDoc : YNode :=
  .map [("a", .map [("b", .scalar "1")]), ("a", .map [("b", .scalar "2")])]

/-- Schema registering only the YAML-sourced string option `top`. -/
def topOnlySection : OptionSection :=
  ⟨[⟨"top", "top", OptionType.String, srcAll, false, none⟩], []⟩

/-- YAML document whose only scalar leaf sits below the top level and has the
unregistered dotted key `sub.bad`. -/
def nestedOnlyBadDoc : YNode := .map [("sub", .map [("bad", .scalar "x")])]

/-- Collaborator outcomes in which every external step fails, starting with the
command-line parse. -/
def failingCollab : Collaborators where
  cmdlineVm := .error ⟨ErrorCode.BadValue, "Error parsing command line: unknown option"⟩
  readFile := fun _ => .error ⟨ErrorCode.InternalError, "Error reading config file"⟩
  yamlLoad := fun _ => .error ⟨ErrorCode.BadValue, "Error parsing YAML config file"⟩
  iniVm := fun _ => .error ⟨ErrorCode.BadValue, "Error parsing INI config file"⟩

/-- A caller environment that already holds values, defaults and a constraint
before `run` is invoked. -/
def dirtyEnv : Environment :=
  ⟨[("x", Value.stringVal "1")], [("d", Value.intVal 2)], [⟨5⟩]⟩

/-! ### Library lemmas about the environment model -/

@[simp] theorem Status.isOK_ok : Status.ok.isOK = true := rfl

@[simp] theorem lookupKV_setValues_eq {α : Type} (vals : List (String × α))
    (k : String) (v : α) : lookupKV (setValues vals k v) k = some v := by
  induction vals with
  | nil => simp [setValues, lookupKV]
  | cons p rest ih =>
      obtain ⟨k', v'⟩ := p
      by_cases h : k' = k <;> simp [setValues, lookupKV, h, ih]

theorem lookupKV_setValues_ne {α : Type} (vals : List (String × α))
    (k k' : String) (v : α) (h : k' ≠ k) :
    lookupKV (setValues vals k v) k' = lookupKV vals k' := by
  induction vals with
  | nil => simp [setValues, lookupKV, Ne.symm h]
  | cons p rest ih =>
      obtain ⟨k₀, v₀⟩ := p
      by_cases h0 : k₀ = k
      · subst h0
        simp [setValues, lookupKV, Ne.symm h]
      · simp [setValues, lookupKV, h0, ih]

@[simp] theorem keysOf_nil {α : Type} : keysOf ([] : List (String × α)) = [] := rfl

@[simp] theorem keysOf_cons {α : Type} (k : String) (v : α)
    (rest : List (String × α)) : keysOf ((k, v) :: rest) = k :: keysOf rest := rfl

theorem mem_keysOf_setValues {α : Type} (vals : List (String × α))
    (k x : String) (v : α) (hx : x ∈ keysOf (setValues vals k v)) :
    x ∈ keysOf vals ∨ x = k := by
  induction vals with
  | nil =>
      simp [setValues] at hx
      right; exact hx
  | cons p rest ih =>
      obtain ⟨k₀, v₀⟩ := p
      by_cases h0 : k₀ = k
      · subst h0
        simp [setValues] at hx
        rcases hx with hx | hx
        · right; exact hx
        · left; simp [hx]
      · simp [setValues, h0] at hx
        rcases hx with hx | hx
        · left; simp [hx]
        · rcases ih hx with hh | hh
          · left; simp [hh]
          · right; exact hh

theorem nodup_keysOf_setValues {α : Type} (vals : List (String × α)) (k : String)
    (v : α) (hnd : (keysOf vals).Nodup) :
    (keysOf (setValues vals k v)).Nodup := by
  induction vals with
  | nil => simp [setValues]
  | cons p rest ih =>
      obtain ⟨k₀, v₀⟩ := p
      rw [keysOf_cons, List.nodup_cons] at hnd
      by_cases h0 : k₀ = k
      · subst h0
        have hset : setValues ((k₀, v₀) :: rest) k₀ v = (k₀, v) :: rest := by
          simp [setValues]
        rw [hset, keysOf_cons, List.nodup_cons]
        exact hnd
      · simp only [setValues, if_neg h0, keysOf_cons, List.nodup_cons]
        refine ⟨?_, ih hnd.2⟩
        intro hmem
        rcases mem_keysOf_setValues rest k k₀ v hmem with hh | hh
        · exact hnd.1 hh
        · exact h0 hh

theorem lookupKV_eq_none {α : Type} (vals : List (String × α)) (k : String)
    (h : lookupKV vals k = none) : ∀ p ∈ vals, p.1 ≠ k := by
  induction vals with
  | nil => intro p hp; cases hp
  | cons q rest ih =>
      obtain ⟨k₀, v₀⟩ := q
      intro p hp
      by_cases h0 : k₀ = k
      · simp [lookupKV, h0] at h
      · simp only [lookupKV, if_neg h0] at h
        rcases List.mem_cons.mp hp with hp | hp
        · subst hp; exact h0
        · exact ih h p hp

@[simp] theorem Environment.set_fst (env : Environment) (k : String) (v : Value) :
    (env.set k v).1 = Status.ok := rfl

@[simp] theorem Environment.setDefault_fst (env : Environment) (k : String)
    (v : Value) : (env.setDefault k v).1 = Status.ok := rfl

@[simp] theorem Environment.get_set_eq (env : Environment) (k : String) (v : Value) :
    (env.set k v).2.get k = .ok v := by
  simp [Environment.set, Environment.get]

theorem Environment.get_set_ne (env : Environment) (k k' : String) (v : Value)
    (h : k' ≠ k) : (env.set k v).2.get k' = env.get k' := by
  simp [Environment.set, Environment.get, lookupKV_setValues_ne env.values k k' v h]

@[simp] theorem Environment.set_defaults (env : Environment) (k : String)
    (v : Value) : (env.set k v).2.defaults = env.defaults := rfl

@[simp] theorem Environment.get_empty (k : String) :
    Environment.empty.get k = .error ⟨ErrorCode.NoSuchKey, "no such key: " ++ k⟩ := rfl

theorem Environment.getStringVector_set_eq (env : Environment) (k : String)
    (xs : List String) :
    (env.set k (Value.stringVectorVal xs)).2.getStringVector k = .ok xs := by
  simp [Environment.getStringVector]

theorem Environment.getStringVector_set_ne (env : Environment) (k k' : String)
    (v : Value) (h : k' ≠ k) :
    (env.set k v).2.getStringVector k' = env.getStringVector k' := by
  simp [Environment.getStringVector, Environment.get_set_ne env k k' v h]

theorem Environment.getStringVector_ok_get (env : Environment) (k : String)
    (xs : List String) (h : env.getStringVector k = .ok xs) :
    env.get k = .ok (Value.stringVectorVal xs) := by
  unfold Environment.getStringVector at h
  cases hg : env.get k with
  | error st => rw [hg] at h; cases h
  | ok v =>
      rw [hg] at h
      cases v <;> simp_all

theorem Environment.get_lookup_of_defaults_nil (env : Environment)
    (h : env.defaults = []) (k : String) (v : Value)
    (hg : env.get k = .ok v) : lookupKV env.values k = some v := by
  unfold Environment.get at hg
  cases hl : lookupKV env.values k with
  | some w =>
      rw [hl] at hg
      simp at hg
      rw [hg]
  | none => rw [hl, h] at hg; simp [lookupKV] at hg

theorem benignSV_set_vector (env : Environment) (k k' : String) (xs : List String)
    (h : benignSV (env.getStringVector k') = true) :
    benignSV ((env.set k (Value.stringVectorVal xs)).2.getStringVector k') = true := by
  by_cases hk : k' = k
  · subst hk
    simp [Environment.getStringVector_set_eq, benignSV]
  · rw [Environment.getStringVector_set_ne env k k' _ hk]
    exact h

theorem composingBenign_empty (options_vector : List OptionDescription) :
    composingBenign options_vector Environment.empty := by
  intro d _ _
  simp [Environment.getStringVector, benignSV]

/-! ### Lemmas about the layering primitives -/

theorem setAllLoop_get_of_not_mem (env : Environment)
    (vals : List (String × Value)) (k : String)
    (h : ∀ p ∈ vals, p.1 ≠ k) : (setAllLoop env vals).get k = env.get k := by
  induction vals generalizing env with
  | nil => rfl
  | cons p rest ih =>
      obtain ⟨k₀, v₀⟩ := p
      have hk0 : k₀ ≠ k := h (k₀, v₀) (List.mem_cons_self _ _)
      have hrest : ∀ p ∈ rest, p.1 ≠ k := fun p hp => h p (List.mem_cons_of_mem _ hp)
      calc (setAllLoop env ((k₀, v₀) :: rest)).get k
          = (setAllLoop (env.set k₀ v₀).2 rest).get k := rfl
        _ = (env.set k₀ v₀).2.get k := ih _ hrest
        _ = env.get k := Environment.get_set_ne env k₀ k v₀ (Ne.symm hk0)

theorem setAllLoop_get_of_lookup (env : Environment)
    (vals : List (String × Value)) (k : String) (v : Value)
    (hnd : (keysOf vals).Nodup) (hl : lookupKV vals k = some v) :
    (setAllLoop env vals).get k = .ok v := by
  induction vals generalizing env with
  | nil => cases hl
  | cons p rest ih =>
      obtain ⟨k₀, v₀⟩ := p
      rw [keysOf_cons, List.nodup_cons] at hnd
      by_cases h0 : k₀ = k
      · subst h0
        simp [lookupKV] at hl
        subst hl
        have hrest : ∀ p ∈ rest, p.1 ≠ k₀ := by
          intro p hp hc
          exact hnd.1 (hc ▸ List.mem_map_of_mem Prod.fst hp)
        calc (setAllLoop env ((k₀, v₀) :: rest)).get k₀
            = (setAllLoop (env.set k₀ v₀).2 rest).get k₀ := rfl
          _ = (env.set k₀ v₀).2.get k₀ := setAllLoop_get_of_not_mem _ rest k₀ hrest
          _ = .ok v₀ := Environment.get_set_eq env k₀ v₀
      · simp only [lookupKV, if_neg h0] at hl
        exact ih _ hnd.2 hl

theorem addDefaultValuesLoop_fst (defaults : List (String × Value))
    (env : Environment) : (addDefaultValuesLoop defaults env).1 = Status.ok := by
  induction defaults generalizing env with
  | nil => rfl
  | cons p rest ih =>
      obtain ⟨k, v⟩ := p
      simpa [addDefaultValuesLoop, Environment.setDefault] using ih _

theorem addDefaultValuesLoop_values (defaults : List (String × Value))
    (env : Environment) :
    (addDefaultValuesLoop defaults env).2.values = env.values := by
  induction defaults generalizing env with
  | nil => rfl
  | cons p rest ih =>
      obtain ⟨k, v⟩ := p
      simpa [addDefaultValuesLoop, Environment.setDefault] using ih _

theorem foldl_addConstraint_values (cs : List Constraint) (env : Environment) :
    (cs.foldl Environment.addConstraint env).values = env.values := by
  induction cs generalizing env with
  | nil => rfl
  | cons c rest ih => simpa [Environment.addConstraint] using ih _

theorem foldl_addConstraint_defaults (cs : List Constraint) (env : Environment) :
    (cs.foldl Environment.addConstraint env).defaults = env.defaults := by
  induction cs generalizing env with
  | nil => rfl
  | cons c rest ih => simpa [Environment.addConstraint] using ih _

theorem addConstraints_get (options : OptionSection) (env : Environment)
    (k : String) : (addConstraints options env).2.get k = env.get k := by
  unfold Environment.get
  rw [show (addConstraints options env).2 = options.constraints.foldl Environment.addConstraint env from rfl,
      foldl_addConstraint_values, foldl_addConstraint_defaults]

/-! ### Lemmas about `addCompositions` -/

theorem addCompositionsLoop_fst_ok (options_vector : List OptionDescription)
    (source dest : Environment)
    (hsrc : composingBenign options_vector source)
    (hdst : composingBenign options_vector dest) :
    (addCompositionsLoop options_vector source dest).1 = Status.ok := by
  induction options_vector generalizing dest with
  | nil => rfl
  | cons d rest ih =>
      have hsrc' : composingBenign rest source :=
        fun e he hc => hsrc e (List.mem_cons_of_mem _ he) hc
      have hdst' : composingBenign rest dest :=
        fun e he hc => hdst e (List.mem_cons_of_mem _ he) hc
      by_cases hc : d.isComposing = true
      · have hbs := hsrc d (List.mem_cons_self _ _) hc
        have hbd := hdst d (List.mem_cons_self _ _) hc
        cases hgs : source.getStringVector d.dottedName with
        | error st =>
            rw [hgs] at hbs
            simp [benignSV] at hbs
            simp [addCompositionsLoop, hc, hgs, hbs]
            exact ih _ hsrc' hdst'
        | ok source_value =>
            cases hgd : dest.getStringVector d.dottedName with
            | error st =>
                rw [hgd] at hbd
                simp [benignSV] at hbd
                simp [addCompositionsLoop, hc, hgs, hgd, hbd]
                refine ih _ hsrc' ?_
                intro e he hec
                exact benignSV_set_vector dest d.dottedName e.dottedName _
                  (hdst e (List.mem_cons_of_mem _ he) hec)
            | ok dest_value =>
                simp [addCompositionsLoop, hc, hgs, hgd]
                refine ih _ hsrc' ?_
                intro e he hec
                exact benignSV_set_vector dest d.dottedName e.dottedName _
                  (hdst e (List.mem_cons_of_mem _ he) hec)
      · simp [addCompositionsLoop, hc]
        exact ih _ hsrc' hdst'

theorem addCompositionsLoop_get_of_not_composing
    (options_vector : List OptionDescription) (source dest : Environment)
    (k : String)
    (hk : ∀ d ∈ options_vector, d.isComposing = true → d.dottedName ≠ k) :
    (addCompositionsLoop options_vector source dest).2.get k = dest.get k := by
  induction options_vector generalizing dest with
  | nil => rfl
  | cons d rest ih =>
      have hk' : ∀ e ∈ rest, e.isComposing = true → e.dottedName ≠ k :=
        fun e he => hk e (List.mem_cons_of_mem _ he)
      by_cases hc : d.isComposing = true
      · have hdk : d.dottedName ≠ k := hk d (List.mem_cons_self _ _) hc
        cases hgs : source.getStringVector d.dottedName with
        | error st =>
            by_cases hcode : st.code = ErrorCode.NoSuchKey
            · simp [addCompositionsLoop, hc, hgs, hcode]
              exact ih _ hk'
            · simp [addCompositionsLoop, hc, hgs, hcode]
        | ok source_value =>
            cases hgd : dest.getStringVector d.dottedName with
            | error st =>
                by_cases hcode : st.code = ErrorCode.NoSuchKey
                · simp [addCompositionsLoop, hc, hgs, hgd, hcode]
                  rw [ih _ hk']
                  exact Environment.get_set_ne dest d.dottedName k _ (Ne.symm hdk)
                · simp [addCompositionsLoop, hc, hgs, hgd, hcode]
            | ok dest_value =>
                simp [addCompositionsLoop, hc, hgs, hgd]
                rw [ih _ hk']
                exact Environment.get_set_ne dest d.dottedName k _ (Ne.symm hdk)
      · simp [addCompositionsLoop, hc]
        exact ih _ hk'

theorem addCompositionsLoop_defaults (options_vector : List OptionDescription)
    (source dest : Environment) :
    (addCompositionsLoop options_vector source dest).2.defaults = dest.defaults := by
  induction options_vector generalizing dest with
  | nil => rfl
  | cons d rest ih =>
      by_cases hc : d.isComposing = true
      · cases hgs : source.getStringVector d.dottedName with
        | error st =>
            by_cases hcode : st.code = ErrorCode.NoSuchKey
            · simp [addCompositionsLoop, hc, hgs, hcode]; exact ih _
            · simp [addCompositionsLoop, hc, hgs, hcode]
        | ok source_value =>
            cases hgd : dest.getStringVector d.dottedName with
            | error st =>
                by_cases hcode : st.code = ErrorCode.NoSuchKey
                · simp [addCompositionsLoop, hc, hgs, hgd, hcode]
                  rw [ih _]
                  rfl
                · simp [addCompositionsLoop, hc, hgs, hgd, hcode]
            | ok dest_value =>
                simp [addCompositionsLoop, hc, hgs, hgd]
                rw [ih _]
                rfl
      · simp [addCompositionsLoop, hc]; exact ih _

theorem addCompositionsLoop_nodup_keys (options_vector : List OptionDescription)
    (source dest : Environment) (hnd : (keysOf dest.values).Nodup) :
    (keysOf (addCompositionsLoop options_vector source dest).2.values).Nodup := by
  induction options_vector generalizing dest with
  | nil => exact hnd
  | cons d rest ih =>
      by_cases hc : d.isComposing = true
      · cases hgs : source.getStringVector d.dottedName with
        | error st =>
            by_cases hcode : st.code = ErrorCode.NoSuchKey
            · simp [addCompositionsLoop, hc, hgs, hcode]; exact ih _ hnd
            · simp [addCompositionsLoop, hc, hgs, hcode]; exact hnd
        | ok source_value =>
            cases hgd : dest.getStringVector d.dottedName with
            | error st =>
                by_cases hcode : st.code = ErrorCode.NoSuchKey
                · simp [addCompositionsLoop, hc, hgs, hgd, hcode]
                  exact ih _ (nodup_keysOf_setValues _ _ _ hnd)
                · simp [addCompositionsLoop, hc, hgs, hgd, hcode]; exact hnd
            | ok dest_value =>
                simp [addCompositionsLoop, hc, hgs, hgd]
                exact ih _ (nodup_keysOf_setValues _ _ _ hnd)
      · simp [addCompositionsLoop, hc]; exact ih _ hnd

theorem addCompositionsLoop_get_composing
    (options_vector : List OptionDescription) (source dest : Environment)
    (d : OptionDescription) (xs ds : List String)
    (hd : d ∈ options_vector) (hcomp : d.isComposing = true)
    (hnd : (options_vector.map OptionDescription.dottedName).Nodup)
    (hsrc : composingBenign options_vector source)
    (hdst : composingBenign options_vector dest)
    (hsv : source.getStringVector d.dottedName = .ok xs)
    (hdv : dest.getStringVector d.dottedName = .ok ds ∨
      (ds = [] ∧ ∃ st, dest.getStringVector d.dottedName = .error st ∧
        st.code = ErrorCode.NoSuchKey)) :
    (addCompositionsLoop options_vector source dest).2.getStringVector d.dottedName
      = .ok (ds ++ xs) := by
  induction options_vector generalizing dest with
  | nil => cases hd
  | cons e rest ih =>
      rw [List.map_cons, List.nodup_cons] at hnd
      rcases List.mem_cons.mp hd with hde | hde
      · subst hde
        have hrest : ∀ e' ∈ rest, e'.isComposing = true → e'.dottedName ≠ d.dottedName := by
          intro e' he' _ hc
          exact hnd.1 (hc ▸ List.mem_map_of_mem OptionDescription.dottedName he')
        rcases hdv with hdv | ⟨hds, st, hdv, hcode⟩
        · simp [addCompositionsLoop, hcomp, hsv, hdv]
          have hget := addCompositionsLoop_get_of_not_composing rest source
            (dest.set d.dottedName (Value.stringVectorVal (ds ++ xs))).2
            d.dottedName hrest
          unfold Environment.getStringVector
          rw [hget, Environment.get_set_eq]
        · subst hds
          simp [addCompositionsLoop, hcomp, hsv, hdv, hcode]
          have hget := addCompositionsLoop_get_of_not_composing rest source
            (dest.set d.dottedName (Value.stringVectorVal xs)).2
            d.dottedName hrest
          unfold Environment.getStringVector
          rw [hget, Environment.get_set_eq]
      · have hdd : e.dottedName ≠ d.dottedName := by
          intro hc
          exact hnd.1 (hc ▸ List.mem_map_of_mem OptionDescription.dottedName hde)
        have hsrc' : composingBenign rest source :=
          fun e' he' hc => hsrc e' (List.mem_cons_of_mem _ he') hc
        have hdst' : composingBenign rest dest :=
          fun e' he' hc => hdst e' (List.mem_cons_of_mem _ he') hc
        by_cases hce : e.isComposing = true
        · have hbs := hsrc e (List.mem_cons_self _ _) hce
          cases hgs : source.getStringVector e.dottedName with
          | error st =>
              rw [hgs] at hbs
              simp [benignSV] at hbs
              simp [addCompositionsLoop, hce, hgs, hbs]
              exact ih dest hde hnd.2 hsrc' hdst' hdv
          | ok ys =>
              have hbd := hdst e (List.mem_cons_self _ _) hce
              cases hgd : dest.getStringVector e.dottedName with
              | error st =>
                  rw [hgd] at hbd
                  simp [benignSV] at hbd
                  simp [addCompositionsLoop, hce, hgs, hgd, hbd]
                  refine ih _ hde hnd.2 hsrc' ?_ ?_
                  · intro e' he' hc
                    exact benignSV_set_vector dest e.dottedName e'.dottedName _
                      (hdst e' (List.mem_cons_of_mem _ he') hc)
                  · rw [Environment.getStringVector_set_ne dest e.dottedName
                      d.dottedName _ (Ne.symm hdd)]
                    exact hdv
              | ok des =>
                  simp [addCompositionsLoop, hce, hgs, hgd]
                  refine ih _ hde hnd.2 hsrc' ?_ ?_
                  · intro e' he' hc
                    exact benignSV_set_vector dest e.dottedName e'.dottedName _
                      (hdst e' (List.mem_cons_of_mem _ he') hc)
                  · rw [Environment.getStringVector_set_ne dest e.dottedName
                      d.dottedName _ (Ne.symm hdd)]
                    exact hdv
        · simp [addCompositionsLoop, hce]
          exact ih dest hde hnd.2 hsrc' hdst' hdv

theorem addCompositionsLoop_benign_pointwise
    (options_vector : List OptionDescription) (source dest : Environment)
    (k : String) (h : benignSV (dest.getStringVector k) = true) :
    benignSV ((addCompositionsLoop options_vector source dest).2.getStringVector k)
      = true := by
  induction options_vector generalizing dest with
  | nil => exact h
  | cons d rest ih =>
      by_cases hc : d.isComposing = true
      · cases hgs : source.getStringVector d.dottedName with
        | error st =>
            by_cases hcode : st.code = ErrorCode.NoSuchKey
            · simp [addCompositionsLoop, hc, hgs, hcode]; exact ih _ h
            · simp [addCompositionsLoop, hc, hgs, hcode]; exact h
        | ok source_value =>
            cases hgd : dest.getStringVector d.dottedName with
            | error st =>
                by_cases hcode : st.code = ErrorCode.NoSuchKey
                · simp [addCompositionsLoop, hc, hgs, hgd, hcode]
                  exact ih _ (benignSV_set_vector dest d.dottedName k _ h)
                · simp [addCompositionsLoop, hc, hgs, hgd, hcode]; exact h
            | ok dest_value =>
                simp [addCompositionsLoop, hc, hgs, hgd]
                exact ih _ (benignSV_set_vector dest d.dottedName k _ h)
      · simp [addCompositionsLoop, hc]; exact ih _ h

theorem Environment.lookup_none_of_get_error (env : Environment) (k : String)
    (st : Status) (hg : env.get k = .error st) :
    lookupKV env.values k = none := by
  unfold Environment.get at hg
  cases hl : lookupKV env.values k with
  | some w => rw [hl] at hg; cases hg
  | none => rfl

/-- When both composition passes succeed, `mergeEnvironments` is the explicit
chain: defaults, config layer, command-line layer, composed layer,
constraints. -/
theorem mergeEnvironments_eq (options : OptionSection)
    (cfgEnv cliEnv env0 : Environment)
    (h1 : (addCompositionsLoop options.opts cliEnv Environment.empty).1 = Status.ok)
    (h2 : (addCompositionsLoop options.opts cfgEnv
      (addCompositionsLoop options.opts cliEnv Environment.empty).2).1 = Status.ok) :
    mergeEnvironments options cfgEnv cliEnv env0 =
      (Status.ok,
        (addConstraints options
          (setAllLoop
            (setAllLoop
              (setAllLoop (addDefaultValues options env0).2 cfgEnv.values)
              cliEnv.values)
            (addCompositionsLoop options.opts cfgEnv
              (addCompositionsLoop options.opts cliEnv Environment.empty).2).2.values)).2) := by
  unfold mergeEnvironments
  simp [addCompositions, h1, h2, Environment.setAll, addDefaultValues,
        addDefaultValuesLoop_fst, addConstraints]

/-! ### Claim theorems -/

/-- C1 (amended): for every composing (vector-typed) option whose dotted name
is unique in the schema and that is present in both the config-file and the
command-line environments, the merge stage of `OptionsParser::run` succeeds
and the resolved value for that key is the sequence consisting of the
**command-line** elements first, followed by the **config-file** elements,
each source's internal element order preserved.  (The claim's config-first
order does not hold: `run` calls `addCompositions` with the command-line
environment first, and `addCompositions` appends the source elements after the
destination elements, so the command-line elements end up first.)  The
benignity hypotheses say that every composing option reads from each source
environment either as a string vector or as a clean miss, which is how both
adapters populate them. -/
theorem mergeEnvironments_composing_order (options : OptionSection)
    (cfgEnv cliEnv env0 : Environment) (d : OptionDescription)
    (xs ys : List String)
    (hd : d ∈ options.opts) (hcomp : d.isComposing = true)
    (hnd : (options.opts.map OptionDescription.dottedName).Nodup)
    (hcli : cliEnv.getStringVector d.dottedName = .ok xs)
    (hcfg : cfgEnv.getStringVector d.dottedName = .ok ys)
    (hbcli : composingBenign options.opts cliEnv)
    (hbcfg : composingBenign options.opts cfgEnv) :
    (mergeEnvironments options cfgEnv cliEnv env0).1 = Status.ok ∧
    (mergeEnvironments options cfgEnv cliEnv env0).2.get d.dottedName =
      .ok (Value.stringVectorVal (xs ++ ys)) := by
  have hbEmpty := composingBenign_empty options.opts
  have h1 := addCompositionsLoop_fst_ok options.opts cliEnv Environment.empty
    hbcli hbEmpty
  have hbc1 : composingBenign options.opts
      (addCompositionsLoop options.opts cliEnv Environment.empty).2 := by
    intro e he hc
    exact addCompositionsLoop_benign_pointwise options.opts cliEnv
      Environment.empty e.dottedName (hbEmpty e he hc)
  have h2 := addCompositionsLoop_fst_ok options.opts cfgEnv
    (addCompositionsLoop options.opts cliEnv Environment.empty).2 hbcfg hbc1
  have hc1 : (addCompositionsLoop options.opts cliEnv Environment.empty).2.getStringVector
      d.dottedName = .ok xs := by
    have := addCompositionsLoop_get_composing options.opts cliEnv
      Environment.empty d xs [] hd hcomp hnd hbcli hbEmpty hcli
      (Or.inr ⟨rfl, ⟨ErrorCode.NoSuchKey, "no such key: " ++ d.dottedName⟩,
        by simp [Environment.getStringVector], rfl⟩)
    simpa using this
  have hc2 : (addCompositionsLoop options.opts cfgEnv
      (addCompositionsLoop options.opts cliEnv Environment.empty).2).2.getStringVector
      d.dottedName = .ok (xs ++ ys) :=
    addCompositionsLoop_get_composing options.opts cfgEnv
      (addCompositionsLoop options.opts cliEnv Environment.empty).2 d ys xs
      hd hcomp hnd hbcfg hbc1 hcfg (Or.inl hc1)
  have hdef : (addCompositionsLoop options.opts cfgEnv
      (addCompositionsLoop options.opts cliEnv Environment.empty).2).2.defaults = [] := by
    rw [addCompositionsLoop_defaults, addCompositionsLoop_defaults]
    rfl
  have hlook := Environment.get_lookup_of_defaults_nil _ hdef d.dottedName _
    (Environment.getStringVector_ok_get _ _ _ hc2)
  have hndk : (keysOf (addCompositionsLoop options.opts cfgEnv
      (addCompositionsLoop options.opts cliEnv Environment.empty).2).2.values).Nodup := by
    refine addCompositionsLoop_nodup_keys _ _ _ ?_
    refine addCompositionsLoop_nodup_keys _ _ _ ?_
    simp [Environment.empty, keysOf]
  rw [mergeEnvironments_eq options cfgEnv cliEnv env0 h1 h2]
  refine ⟨rfl, ?_⟩
  show (addConstraints options _).2.get d.dottedName = _
  rw [addConstraints_get]
  exact setAllLoop_get_of_lookup _ _ d.dottedName _ hndk hlook

/-- C1 witness: a concrete instance of the amended claim, with the composing
option `multi` carrying `[cli1]` on the command line and `[cfg1]` in the
config file. -/
theorem mergeEnvironments_composing_order_witness :
    (mergeEnvironments composeScenarioSection
        ⟨[("multi", Value.stringVectorVal ["cfg1"])], [], []⟩
        ⟨[("multi", Value.stringVectorVal ["cli1"])], [], []⟩
        Environment.empty).2.get "multi" =
      .ok (Value.stringVectorVal (["cli1"] ++ ["cfg1"])) :=
  (mergeEnvironments_composing_order composeScenarioSection
    ⟨[("multi", Value.stringVectorVal ["cfg1"])], [], []⟩
    ⟨[("multi", Value.stringVectorVal ["cli1"])], [], []⟩
    Environment.empty multiOpt ["cli1"] ["cfg1"]
    (by decide) (by decide) (by decide) (by decide) (by decide)
    (by decide) (by decide)).2

/-- C1 counterexample: in a full `run` in which the composing option `multi`
is `[cli1]` on the command line and `[cfg1]` in the (YAML) config file, the
resolved sequence is `[cli1, cfg1]` — command-line elements first — and not
the claimed `[cfg1, cli1]` (config-file elements first). -/
theorem run_composing_order_counterexample :
    (parseCommandLine composeScenarioSection composeScenarioCollab.cmdlineVm
        Environment.empty).2.get "multi" = .ok (Value.stringVectorVal ["cli1"]) ∧
    (addYAMLNodesToEnvironment (.map [("multi", .seq [.scalar "cfg1"])])
        composeScenarioSection "" Environment.empty).2.get "multi" =
      .ok (Value.stringVectorVal ["cfg1"]) ∧
    (run composeScenarioSection composeScenarioCollab Environment.empty).1 = Status.ok ∧
    (run composeScenarioSection composeScenarioCollab Environment.empty).2.get "multi" =
      .ok (Value.stringVectorVal ["cli1", "cfg1"]) ∧
    ¬ (run composeScenarioSection composeScenarioCollab Environment.empty).2.get "multi" =
      .ok (Value.stringVectorVal ["cfg1", "cli1"]) := by
  refine ⟨rfl, rfl, rfl, rfl, ?_⟩
  decide

/-- C2: for every key that is not the dotted name of any composing option and
that is explicitly set in both the config-file and the command-line
environments, the merge stage succeeds and resolves the key to the
command-line value (command line strictly overrides config file); and a key
set only in the config file resolves to the config-file value — in both cases
the explicit value is what `get` returns, so any schema default for such a key
is overridden.  The key-uniqueness hypotheses state that each source
environment holds at most one entry per key, as environments built by the
adapters do. -/
theorem mergeEnvironments_cli_overrides_config (options : OptionSection)
    (cfgEnv cliEnv env0 : Environment) (k : String)
    (hnc : ∀ d ∈ options.opts, d.isComposing = true → d.dottedName ≠ k)
    (hbcli : composingBenign options.opts cliEnv)
    (hbcfg : composingBenign options.opts cfgEnv)
    (hndcli : (keysOf cliEnv.values).Nodup)
    (hndcfg : (keysOf cfgEnv.values).Nodup) :
    (mergeEnvironments options cfgEnv cliEnv env0).1 = Status.ok ∧
    (∀ vl, lookupKV cliEnv.values k = some vl →
      (mergeEnvironments options cfgEnv cliEnv env0).2.get k = .ok vl) ∧
    (lookupKV cliEnv.values k = none →
      ∀ vc, lookupKV cfgEnv.values k = some vc →
      (mergeEnvironments options cfgEnv cliEnv env0).2.get k = .ok vc) := by
  have hbEmpty := composingBenign_empty options.opts
  have h1 := addCompositionsLoop_fst_ok options.opts cliEnv Environment.empty
    hbcli hbEmpty
  have hbc1 : composingBenign options.opts
      (addCompositionsLoop options.opts cliEnv Environment.empty).2 := by
    intro e he hc
    exact addCompositionsLoop_benign_pointwise options.opts cliEnv
      Environment.empty e.dottedName (hbEmpty e he hc)
  have h2 := addCompositionsLoop_fst_ok options.opts cfgEnv
    (addCompositionsLoop options.opts cliEnv Environment.empty).2 hbcfg hbc1
  have hcomp_get : (addCompositionsLoop options.opts cfgEnv
      (addCompositionsLoop options.opts cliEnv Environment.empty).2).2.get k =
      Environment.empty.get k := by
    rw [addCompositionsLoop_get_of_not_composing options.opts cfgEnv _ k hnc,
        addCompositionsLoop_get_of_not_composing options.opts cliEnv _ k hnc]
  have hcomp_none : lookupKV (addCompositionsLoop options.opts cfgEnv
      (addCompositionsLoop options.opts cliEnv Environment.empty).2).2.values k = none := by
    refine Environment.lookup_none_of_get_error _ k
      ⟨ErrorCode.NoSuchKey, "no such key: " ++ k⟩ ?_
    rw [hcomp_get]
    rfl
  have hcomp_notmem := lookupKV_eq_none _ k hcomp_none
  rw [mergeEnvironments_eq options cfgEnv cliEnv env0 h1 h2]
  refine ⟨rfl, ?_, ?_⟩
  · intro vl hvl
    show (addConstraints options _).2.get k = _
    rw [addConstraints_get, setAllLoop_get_of_not_mem _ _ k hcomp_notmem,
        setAllLoop_get_of_lookup _ _ k vl hndcli hvl]
  · intro hnone vc hvc
    have hcli_notmem := lookupKV_eq_none _ k hnone
    show (addConstraints options _).2.get k = _
    rw [addConstraints_get, setAllLoop_get_of_not_mem _ _ k hcomp_notmem,
        setAllLoop_get_of_not_mem _ _ k hcli_notmem,
        setAllLoop_get_of_lookup _ _ k vc hndcfg hvc]

/-- C2 witness: the non-composing string option `host` set to `fromCfg` in the
config environment and `fromCli` in the command-line environment resolves to
`fromCli`; set only in the config environment it resolves to `fromCfg`. -/
theorem mergeEnvironments_cli_overrides_config_witness :
    (mergeEnvironments composeScenarioSection
        ⟨[("host", Value.stringVal "fromCfg")], [], []⟩
        ⟨[("host", Value.stringVal "fromCli")], [], []⟩
        Environment.empty).2.get "host" = .ok (Value.stringVal "fromCli") ∧
    (mergeEnvironments composeScenarioSection
        ⟨[("host", Value.stringVal "fromCfg")], [], []⟩
        ⟨[], [], []⟩
        Environment.empty).2.get "host" = .ok (Value.stringVal "fromCfg") :=
  ⟨(mergeEnvironments_cli_overrides_config composeScenarioSection
      ⟨[("host", Value.stringVal "fromCfg")], [], []⟩
      ⟨[("host", Value.stringVal "fromCli")], [], []⟩
      Environment.empty "host"
      (by decide) (by decide) (by decide) (by decide) (by decide)).2.1
      (Value.stringVal "fromCli") (by decide),
   (mergeEnvironments_cli_overrides_config composeScenarioSection
      ⟨[("host", Value.stringVal "fromCfg")], [], []⟩
      ⟨[], [], []⟩
      Environment.empty "host"
      (by decide) (by decide) (by decide) (by decide) (by decide)).2.2
      (by decide) (Value.stringVal "fromCfg") (by decide)⟩

theorem addDefaultValues_fst (options : OptionSection) (env : Environment) :
    (addDefaultValues options env).1 = Status.ok :=
  addDefaultValuesLoop_fst _ _

theorem mergeEnvironments_error (options : OptionSection)
    (cfgEnv cliEnv env0 : Environment)
    (h : (mergeEnvironments options cfgEnv cliEnv env0).1.isOK = false) :
    (mergeEnvironments options cfgEnv cliEnv env0).2 = env0 := by
  by_cases h1 : (addCompositions options cliEnv Environment.empty).1.isOK
  · by_cases h2 : (addCompositions options cfgEnv
        (addCompositions options cliEnv Environment.empty).2).1.isOK
    · exfalso
      unfold mergeEnvironments at h
      simp [h1, h2, Environment.setAll, addDefaultValues, addDefaultValuesLoop_fst,
            addConstraints] at h
    · unfold mergeEnvironments
      simp [h1, h2]
  · unfold mergeEnvironments
    simp [h1]

/-- C3: whenever `OptionsParser::run` returns an error status — from the
command-line parse, the `config` lookup, the file read, the YAML parse, either
config-file adapter, or the composition pass — the caller's output environment
is returned exactly as it was passed in: every failing stage aborts before the
output environment is touched, and the stages that do touch it (default
injection, the three layering passes, constraint attachment) cannot fail in
the model, matching the spec's no-partial-success contract. -/
theorem run_error_leaves_environment_unchanged (options : OptionSection)
    (collab : Collaborators) (environment : Environment)
    (herr : (run options collab environment).1.isOK = false) :
    (run options collab environment).2 = environment := by
  revert herr
  unfold run
  split
  split
  · intro _; rfl
  · split
    · split
      · intro _; rfl
      · exact fun h => mergeEnvironments_error options Environment.empty _ environment h
    · split
      · intro _; rfl
      · split
        · intro _; rfl
        · split
          · intro _; rfl
          · split
            split
            · intro _; rfl
            · exact fun h => mergeEnvironments_error options _ _ environment h

/-- C3 witness: a failing command-line parse leaves a pre-populated caller
environment exactly as it was. -/
theorem run_error_leaves_environment_unchanged_witness :
    (run composeScenarioSection failingCollab dirtyEnv).1.isOK = false ∧
    (run composeScenarioSection failingCollab dirtyEnv).2 = dirtyEnv :=
  ⟨by decide,
   run_error_leaves_environment_unchanged composeScenarioSection failingCollab
     dirtyEnv (by decide)⟩

theorem strAppend_assoc : ∀ a b c : String, (a ++ b) ++ c = a ++ (b ++ c)
  | ⟨xs⟩, ⟨ys⟩, ⟨zs⟩ => congrArg String.mk (List.append_assoc xs ys zs)

/-- C4: in `addYAMLNodesToEnvironment`, the `Status` of the recursive call for
a mapping-valued field is discarded — processing a mapping child is by
definition "recurse, ignore the status, continue with the (possibly partially
filled) environment" — so an error below the top level does not abort the
parse: concretely, for `nestedBadDoc` (whose nested leaf `sub.bad` is
unregistered) the adapter reports success and the resulting environment holds
the sibling entry `good` but nothing for the failed subtree. -/
theorem addYAMLNodes_nested_map_status_discarded :
    (∀ (fieldName : String) (inner rest : List (String × YNode))
       (options : OptionSection) (parentPath : String) (env : Environment),
      addYAMLChildren ((fieldName, .map inner) :: rest) options parentPath env =
        addYAMLChildren rest options parentPath
          (addYAMLNodesToEnvironment (.map inner) options
            (dottedNameFor parentPath fieldName) env).2) ∧
    (addYAMLNodesToEnvironment nestedBadDoc goodOnlySection "" Environment.empty).1
      = Status.ok ∧
    (addYAMLNodesToEnvironment nestedBadDoc goodOnlySection "" Environment.empty).2.get
      "good" = .ok (Value.stringVal "x") ∧
    lookupYAMLType goodOnlySection.opts "sub.bad" = none ∧
    (addYAMLNodesToEnvironment nestedBadDoc goodOnlySection "" Environment.empty).2.get
      "sub.bad" = .error ⟨ErrorCode.NoSuchKey, "no such key: sub.bad"⟩ := by
  refine ⟨?_, rfl, rfl, rfl, rfl⟩
  intro fieldName inner rest options parentPath env
  simp [addYAMLChildren, YNode.isMap]

/-- C5 counterexample: in `nestedDupDoc` the dotted key `a.b` is produced
twice via nested mappings (the schema registers `a.b`, and the first pass
stores `a.b = "1"`), yet the adapter returns OK — the duplicate is detected
inside the second recursive call, whose status is discarded — so no `BadValue`
error mentioning any form of "duplicate key" is reported, contrary to the
claim. -/
theorem addYAMLNodes_nested_duplicate_counterexample :
    (addYAMLNodesToEnvironment nestedDupDoc abSection "" Environment.empty).1
      = Status.ok ∧
    Status.ok.code ≠ ErrorCode.BadValue ∧
    (addYAMLNodesToEnvironment nestedDupDoc abSection "" Environment.empty).2.get "a.b"
      = .ok (Value.stringVal "1") := by
  refine ⟨rfl, by decide, rfl⟩

/-- C5 (amended): a duplicate dotted key detected in a status-propagating
frame — such as two top-level leaves with the same key, both coercing
successfully — makes the adapter fail with `BadValue`, with the environment
still holding the first value; the message contains the *misspelled* string
"duplcate key" (options_parser.cpp line 345), not "duplicate key", and
duplicates arising inside nested mappings are swallowed by the discarded
recursive status. -/
theorem addYAMLNodes_toplevel_duplicate_key (k : String) (n1 n2 : YNode)
    (rest : List (String × YNode)) (options : OptionSection) (w1 w2 : Value)
    (hm1 : n1.isMap = false) (hm2 : n2.isMap = false)
    (hv1 : YAMLNodeToValue n1 options.opts k = .ok w1)
    (hv2 : YAMLNodeToValue n2 options.opts k = .ok w2) :
    addYAMLNodesToEnvironment (.map ((k, n1) :: (k, n2) :: rest)) options ""
        Environment.empty =
      (⟨ErrorCode.BadValue, "Error parsing YAML config: duplcate key: " ++ k⟩,
       (Environment.empty.set k w1).2) ∧
    strContains ("Error parsing YAML config: duplcate key: " ++ k) "duplcate key" := by
  constructor
  · simp [addYAMLNodesToEnvironment, addYAMLChildren, dottedNameFor, hm1, hm2,
          hv1, hv2, Environment.get, Environment.set, Environment.empty,
          lookupKV, setValues]
  · refine ⟨"Error parsing YAML config: ", ": " ++ k, ?_⟩
    rw [← strAppend_assoc]
    rfl

/-- C5 witness: the top-level duplicate string key `port` with values `1` then
`2` yields the `BadValue` "duplcate key" failure of the amended claim. -/
theorem addYAMLNodes_toplevel_duplicate_key_witness :
    addYAMLNodesToEnvironment
        (.map [("port", .scalar "1"), ("port", .scalar "2")])
        ⟨[⟨"port", "port", OptionType.String, srcAll, false, none⟩], []⟩ ""
        Environment.empty =
      (⟨ErrorCode.BadValue, "Error parsing YAML config: duplcate key: " ++ "port"⟩,
       (Environment.empty.set "port" (Value.stringVal "1")).2) ∧
    strContains ("Error parsing YAML config: duplcate key: " ++ "port") "duplcate key" :=
  addYAMLNodes_toplevel_duplicate_key "port" (.scalar "1") (.scalar "2") []
    ⟨[⟨"port", "port", OptionType.String, srcAll, false, none⟩], []⟩
    (Value.stringVal "1") (Value.stringVal "2") rfl rfl (by decide) (by decide)

/-- C6: for an option registered for the YAML source with declared type `Bool`
or `Switch`, the YAML scalar `"true"` coerces to `Value(true)`, while the
scalar `"false"` is never recognized as boolean false — the source's second
branch (options_parser.cpp line 172) tests the literal `"true"` again — and
instead falls into the error branch, returning `BadValue`. -/
theorem YAMLNodeToValue_bool_true_false (options_vector : List OptionDescription)
    (key : String) (ty : OptionType)
    (hreg : lookupYAMLType options_vector key = some ty)
    (hty : ty = OptionType.Bool ∨ ty = OptionType.Switch) :
    YAMLNodeToValue (.scalar "true") options_vector key = .ok (Value.boolVal true) ∧
    YAMLNodeToValue (.scalar "false") options_vector key =
      .error ⟨ErrorCode.BadValue,
        "Expected boolean but found string: false for option: " ++ key⟩ := by
  rcases hty with h | h <;> subst h <;>
    exact ⟨by simp [YAMLNodeToValue, hreg, YNode.scalarOf],
           by simp [YAMLNodeToValue, hreg, YNode.scalarOf]⟩

/-- C6 witness: a concrete `Bool` option `flag` registered for YAML. -/
theorem YAMLNodeToValue_bool_true_false_witness :
    YAMLNodeToValue (.scalar "true")
        [⟨"flag", "flag", OptionType.Bool, srcAll, false, none⟩] "flag" =
      .ok (Value.boolVal true) ∧
    YAMLNodeToValue (.scalar "false")
        [⟨"flag", "flag", OptionType.Bool, srcAll, false, none⟩] "flag" =
      .error ⟨ErrorCode.BadValue,
        "Expected boolean but found string: false for option: " ++ "flag"⟩ :=
  YAMLNodeToValue_bool_true_false
    [⟨"flag", "flag", OptionType.Bool, srcAll, false, none⟩] "flag"
    OptionType.Bool (by decide) (Or.inl rfl)

/-- C7 counterexample: `nestedOnlyBadDoc` has a scalar leaf whose dotted key
`sub.bad` is not registered for the YAML source, yet the adapter reports
success: the `BadValue` produced for the leaf aborts only the inner recursive
call, whose status the enclosing level discards, so the claim's "fails with a
BadValue error" does not hold for leaves below the top level. -/
theorem addYAMLNodes_nested_unregistered_counterexample :
    lookupYAMLType topOnlySection.opts "sub.bad" = none ∧
    (addYAMLNodesToEnvironment nestedOnlyBadDoc topOnlySection "" Environment.empty).1
      = Status.ok :=
  ⟨rfl, rfl⟩

/-- C7 (amended): a scalar (non-map) leaf directly under the top-level mapping
whose dotted key is not registered with `SourceYAMLConfig`, reached before any
other failure, fails the adapter with `BadValue` "Unrecognized option"; the
same error for a leaf inside a nested mapping aborts only its own recursive
call, whose status is discarded. -/
theorem addYAMLNodes_toplevel_unregistered (k : String) (node : YNode)
    (rest : List (String × YNode)) (options : OptionSection) (env : Environment)
    (hm : node.isMap = false)
    (hreg : lookupYAMLType options.opts k = none) :
    addYAMLNodesToEnvironment (.map ((k, node) :: rest)) options "" env =
      (⟨ErrorCode.BadValue, "Unrecognized option: " ++ k⟩, env) := by
  simp [addYAMLNodesToEnvironment, addYAMLChildren, dottedNameFor, hm,
        YAMLNodeToValue, hreg]

/-- C7 witness: the unregistered top-level leaf `bogus` rejects the whole
document. -/
theorem addYAMLNodes_toplevel_unregistered_witness :
    addYAMLNodesToEnvironment (.map [("bogus", .scalar "1")]) topOnlySection ""
        Environment.empty =
      (⟨ErrorCode.BadValue, "Unrecognized option: " ++ "bogus"⟩, Environment.empty) :=
  addYAMLNodes_toplevel_unregistered "bogus" (.scalar "1") [] topOnlySection
    Environment.empty rfl (by decide)

/-- C8: a YAML document whose top-level node is neither a mapping nor null
(i.e. a scalar or a sequence) is rejected with `BadValue` "No map found at top
level of YAML config" and the environment is untouched, whereas a null (empty)
document yields OK — in particular, from the fresh empty config environment
`run` supplies, an empty document yields an empty environment with no
error. -/
theorem addYAMLNodes_toplevel_shape (options : OptionSection) (env : Environment) :
    addYAMLNodesToEnvironment .null options "" env = (Status.ok, env) ∧
    (∀ s, addYAMLNodesToEnvironment (.scalar s) options "" env =
      (⟨ErrorCode.BadValue, "No map found at top level of YAML config"⟩, env)) ∧
    (∀ items, addYAMLNodesToEnvironment (.seq items) options "" env =
      (⟨ErrorCode.BadValue, "No map found at top level of YAML config"⟩, env)) ∧
    addYAMLNodesToEnvironment .null options "" Environment.empty =
      (Status.ok, Environment.empty) := by
  refine ⟨?_, fun s => ?_, fun items => ?_, ?_⟩ <;>
    simp [addYAMLNodesToEnvironment]

/-- C9: the merge engine's YAML-vs-INI dispatch: a successfully-parsed config
whose root node is a bare scalar is classified as not-YAML
(`isYAMLConfig = false`) and handed to the INI adapter with the same file
contents, while every other root shape (mapping, sequence, null) is classified
as YAML and handed to the YAML adapter. -/
theorem parseConfigByFormat_classification (options : OptionSection)
    (collab : Collaborators) (config_file : String) (env : Environment) :
    (∀ s, isYAMLConfig (.scalar s) = false ∧
      parseConfigByFormat options collab config_file (.scalar s) env =
        parseINIConfigFile options (collab.iniVm config_file) env) ∧
    (∀ kvs, isYAMLConfig (.map kvs) = true ∧
      parseConfigByFormat options collab config_file (.map kvs) env =
        addYAMLNodesToEnvironment (.map kvs) options "" env) ∧
    (∀ items, isYAMLConfig (.seq items) = true ∧
      parseConfigByFormat options collab config_file (.seq items) env =
        addYAMLNodesToEnvironment (.seq items) options "" env) ∧
    (isYAMLConfig .null = true ∧
      parseConfigByFormat options collab config_file .null env =
        addYAMLNodesToEnvironment .null options "" env) := by
  refine ⟨fun s => ⟨rfl, ?_⟩, fun kvs => ⟨rfl, ?_⟩, fun items => ⟨rfl, ?_⟩, rfl, ?_⟩ <;>
    simp [parseConfigByFormat, isYAMLConfig, YNode.isScalar]

/-- C10: in `addBoostVariablesToEnvironment`, an option declared `Switch`
whose parsed command-line value is the boolean `false` is skipped — the
command-line environment is left exactly as it was for that option, no entry
is written — while a parsed value of `true` writes `Value(true)` under the
option's dotted name. -/
theorem addBoostVariables_switch_false_absent (d : OptionDescription)
    (rest : List OptionDescription) (vm : VariablesMap) (env : Environment)
    (long_name : String)
    (hty : d.type = OptionType.Switch)
    (hln : longNameOf d.singleName = .ok long_name) :
    (lookupKV vm long_name = some (.anyBool false) →
      addBoostVariablesLoop (d :: rest) vm env = addBoostVariablesLoop rest vm env) ∧
    (lookupKV vm long_name = some (.anyBool true) →
      addBoostVariablesLoop (d :: rest) vm env =
        addBoostVariablesLoop rest vm (env.set d.dottedName (Value.boolVal true)).2) := by
  constructor <;> intro hvm <;>
    simp [addBoostVariablesLoop, hln, hvm, boostAnyToValue, hty, Value.getBool]

/-- C10 witness: the `Switch` option `quiet` set false on the command line
leaves the environment untouched; set true it is stored as `Value(true)`. -/
theorem addBoostVariables_switch_false_absent_witness :
    addBoostVariablesLoop [⟨"quiet", "quiet", OptionType.Switch, srcAll, false, none⟩]
        [("quiet", .anyBool false)] Environment.empty =
      addBoostVariablesLoop [] [("quiet", .anyBool false)] Environment.empty ∧
    addBoostVariablesLoop [⟨"quiet", "quiet", OptionType.Switch, srcAll, false, none⟩]
        [("quiet", .anyBool true)] Environment.empty =
      addBoostVariablesLoop [] [("quiet", .anyBool true)]
        (Environment.empty.set "quiet" (Value.boolVal true)).2 :=
  ⟨(addBoostVariables_switch_false_absent
      ⟨"quiet", "quiet", OptionType.Switch, srcAll, false, none⟩ []
      [("quiet", .anyBool false)] Environment.empty "quiet" rfl (by decide)).1 (by decide),
   (addBoostVariables_switch_false_absent
      ⟨"quiet", "quiet", OptionType.Switch, srcAll, false, none⟩ []
      [("quiet", .anyBool true)] Environment.empty "quiet" rfl (by decide)).2 (by decide)⟩

end optionenvironment
